import Mathlib

/-!
Shallow embedding of the core of datalad-gooey: the filesystem browser
(`fsbrowser.py`), the tree items (`fsbrowser_item.py`) and the command
executor (`datalad_cmd.py`).  Paths are modelled as lists of name
segments; Python dict-style result records become a structure of
optional fields; raising a Python exception is modelled with `Except`
or an explicit error component in the return value.
-/

namespace Gooey

/-- A filesystem path, as its sequence of name segments
(`pathlib.Path` in the source).  `Path.name` is the last segment. -/
abbrev FsPath := List String

/-- `FSBrowserItem` (fsbrowser_item.py): one tree node.  Columns are
modelled by the fields that back `data(col, Qt.EditRole)`: column 0 is
derived from the path (`pathobj.name`), column 1 is the datalad type,
column 2 the state.  `childLookup` models `_child_lookup`: `none` when
the lazily-built dict was never initialized, otherwise the set of
registered child names (the dict keys; values are the child objects and
play no role in the operations modelled here). -/
inductive FSItem : Type where
  | mk : FsPath → Option String → Option String → List FSItem →
      Option (List String) → FSItem

/-- `pathobj` of an item. -/
def FSItem.path : FSItem → FsPath
  | .mk p _ _ _ _ => p

/-- `datalad_type`, i.e. `data(1, Qt.EditRole)`. -/
def FSItem.dtype : FSItem → Option String
  | .mk _ t _ _ _ => t

/-- The state column, i.e. `data(2, Qt.EditRole)`; `none` models the
Qt default `None` before any state was ever set. -/
def FSItem.state : FSItem → Option String
  | .mk _ _ s _ _ => s

/-- The list of child items (`child(0) .. child(childCount()-1)`). -/
def FSItem.children : FSItem → List FSItem
  | .mk _ _ _ cs _ => cs

/-- The `_child_lookup` key set (`none` = uninitialized). -/
def FSItem.lookup : FSItem → Option (List String)
  | .mk _ _ _ _ lk => lk

/-- `pathobj.name`: the final path segment (empty for an empty path,
matching `pathlib` for a root like `/`). -/
def FSItem.name (i : FSItem) : String := i.path.getLastD ""

/-- `setData(2, Qt.EditRole, state)`. -/
def FSItem.setState : FSItem → Option String → FSItem
  | .mk p t _ cs lk, s => .mk p t s cs lk

/-- `setData(1, Qt.EditRole, type_)`. -/
def FSItem.setDtype : FSItem → Option String → FSItem
  | .mk p _ s cs lk, t => .mk p t s cs lk

/-- Replace the children list (models mutation of the Qt child list). -/
def FSItem.setChildren : FSItem → List FSItem → FSItem
  | .mk p t s _ lk, cs => .mk p t s cs lk

/-- Replace the `_child_lookup`. -/
def FSItem.setLookup : FSItem → Option (List String) → FSItem
  | .mk p t s cs _, lk => .mk p t s cs lk

/-- A datalad result record (a Python dict); `none` models an absent
key (`res.get(k) is None`). -/
structure Record where
  action : Option String
  path : Option FsPath
  status : Option String
  state : Option String
  message : Option String
  rtype : Option String
  key : Option String
deriving DecidableEq

/-- Python truthiness of an optional string value: `None` and the empty
string are falsy. -/
def truthy : Option String → Bool
  | none => false
  | some s => s ≠ ""

/-- The inner loop of `GooeyFilesystemBrowser._get_item_from_path`: at
each level, scan the children in order and descend into the first one
whose name (`child.data(0, Qt.EditRole)`, i.e. `pathobj.name`) equals
the current path part; raise `ValueError` if none matches. -/
def walkParts : FSItem → List String → Except String FSItem
  | item, [] => .ok item
  | item, p :: rest =>
    match item.children.find? (fun c => c.name == p) with
    | some c => walkParts c rest
    | none => .error "ValueError: Cannot find item"

/-- `GooeyFilesystemBrowser._get_item_from_path`: return the root when
the path equals the root path, otherwise walk down through children by
the parts of `path.relative_to(root.pathobj)`.  `relative_to` raising
(path not under the root) and the not-found case both surface as
`ValueError`, exactly as in the source. -/
def getItemFromPath (root : FSItem) (path : FsPath) : Except String FSItem :=
  if path = root.path then .ok root
  else if path.take root.path.length = root.path then
    walkParts root (path.drop root.path.length)
  else .error "ValueError: path does not start with root"

/-- `GooeyFilesystemBrowser._status_result_receiver`: filter on
`action == 'status'`, a non-None `path` and a non-None `state`, then
resolve the path with `_get_item_from_path` (which may raise — there is
no handler here) and emit `item_annotation_available(item, {state})`.
The return value is the emitted annotation event (`none` = record
discarded by an early `return`); `Except.error` models the uncaught
`ValueError` propagating out of the receiver. -/
def statusResultReceiver (root : FSItem) (res : Record) :
    Except String (Option (FSItem × String)) :=
  if res.action ≠ some "status" then .ok none
  else match res.path with
  | none => .ok none
  | some p =>
    match res.state with
    | none => .ok none
    | some st =>
      match getItemFromPath root p with
      | .ok item => .ok (some (item, st))
      | .error e => .error e

/-- `GooeyFilesystemBrowser._annotate_item(item, props)`: if `props`
has a `state` key, compare it with the current column-2 value and, only
when different, set the column and emit `dataChanged`.  Returns the
updated item and whether `emitDataChanged` was called. -/
def annotate_item (item : FSItem) (props : List (String × String)) :
    FSItem × Bool :=
  match props.lookup "state" with
  | none => (item, false)
  | some st =>
    if some st ≠ item.state then (item.setState (some st), true)
    else (item, false)

/-- `FSBrowserItem.update_from_status_result(res)`: when the record has
no `state` but `status == 'error'` and a `message` key, the message
becomes the state; a truthy state is written to column 2; a truthy
`type` is written to column 1.  (Icon handling has no effect on the
modelled columns and is omitted.) -/
def update_from_status_result (item : FSItem) (res : Record) : FSItem :=
  let state :=
    if res.status = some "error" ∧ res.message.isSome ∧ res.state = none
    then res.message else res.state
  let item1 := if truthy state then item.setState state else item
  if truthy res.rtype then item1.setDtype res.rtype else item1

/-- A Python exception kind, for `FSBrowserItem.removeChild`. -/
inductive PyExn : Type where
  | typeError
  | keyError
deriving DecidableEq

/-- `QTreeWidgetItem.removeChild`'s effect on the child list: remove
the given child object.  Children of one parent have unique names (a
tree invariant: one node per directory entry), so removal of the first
child carrying the object's name coincides with removal by object
identity. -/
def removeFirstByName : List FSItem → String → List FSItem
  | [], _ => []
  | c :: cs, n => if c.name = n then cs else c :: removeFirstByName cs n

/-- `FSBrowserItem.removeChild(item)`: first `super().removeChild(item)`
detaches the child from the Qt child list, then
`del self._child_lookup[item.pathobj.name]` runs — raising `TypeError`
when `_child_lookup` is still `None`, and `KeyError` when the name is
not a key.  Returns the parent as left behind when the call returns or
the exception propagates, plus the raised exception if any. -/
def FSItem.removeChild (parent child : FSItem) : FSItem × Option PyExn :=
  let p1 := parent.setChildren (removeFirstByName parent.children child.name)
  match parent.lookup with
  | none => (p1, some .typeError)
  | some ks =>
    if child.name ∈ ks then (p1.setLookup (some (ks.erase child.name)), none)
    else (p1, some .keyError)

/-- The pending-annotation container `_annotation_queue` is a CPython
`set`.  We model it as the list of elements in insertion order, each
paired with its hash value (`FSBrowserItem` objects use the default
identity-derived hash, so the values are arbitrary machine addresses). -/
abbrev PySet (α : Type) := List (α × Nat)

/-- `set.add(x)`: a no-op when the element is already present,
otherwise the element is stored (insertion order recorded for the
model; a CPython set does not itself expose it). -/
def setAdd [DecidableEq α] (s : PySet α) (x : α) (h : Nat) : PySet α :=
  if s.any (fun p => p.1 = x) then s else s ++ [(x, h)]

/-- Helper for `set.pop()`: scan the list with a current candidate and
return the element with the smallest hash (the first one on ties)
together with the remaining elements.  This models CPython's table
scan, which yields the element in the lowest occupied slot — a function
of the hash values, not of insertion order. -/
def popMin : List (α × Nat) → α × Nat → (α × Nat) × List (α × Nat)
  | [], best => (best, [])
  | x :: xs, best =>
    if x.2 < best.2 then ((popMin xs x).1, best :: (popMin xs x).2)
    else ((popMin xs best).1, x :: (popMin xs best).2)

/-- The `while self._annotation_queue:` drain loop of
`_process_item_annotation_queue`, fuelled by the number of remaining
elements: each iteration `set.pop()`s one element until the set is
empty.  Returns the elements in pop order. -/
def drainFuel : Nat → PySet α → List α
  | 0, _ => []
  | _, [] => []
  | n + 1, x :: xs =>
    (popMin xs x).1.1 :: drainFuel n (popMin xs x).2

/-- Drain the whole pending set (the loop runs until empty; each pop
removes exactly one element, so `s.length` rounds of fuel are exact). -/
def drainQueue (s : PySet α) : List α := drainFuel s.length s

/-- One backend submission made by the annotation scheduler:
`self._app.execute_dataladcmd.emit('status', dict(dataset=.., path=..))`. -/
structure Submission where
  cmd : String
  dataset : FsPath
  paths : List FsPath
deriving DecidableEq

/-- `path.relative_to(dsroot)` for a path below the dataset root. -/
def relativeTo (p root : FsPath) : FsPath := p.drop root.length

/-- The `for child in item.children_():` loop of the no-dataset branch:
emit `item_annotation_available(child, dict(state='untracked'))` for
every child whose `datalad_type` is not `'directory'` (`None` compares
unequal to `'directory'` in Python, so untyped children are included). -/
def annotateUntracked : List FSItem → List (FSItem × String)
  | [] => []
  | c :: cs =>
    if c.dtype ≠ some "directory"
    then (c, "untracked") :: annotateUntracked cs
    else annotateUntracked cs

/-- The list-comprehension `paths_to_investigate`: relative paths of
all non-directory children. -/
def nonDirRelPaths (root : FsPath) : List FSItem → List FsPath
  | [] => []
  | c :: cs =>
    if c.dtype ≠ some "directory"
    then relativeTo c.path root :: nonDirRelPaths root cs
    else nonDirRelPaths root cs

/-- The per-item body of `_process_item_annotation_queue`, given the
result of `get_dataset_root(ipath)` (an external lookup): with no
containing dataset, emit an `untracked` annotation per non-directory
child and submit nothing; with a dataset root, emit nothing directly
and submit one `status` command for the non-directory children's
relative paths — only when that list is non-empty. -/
def processDrainedItem (dsroot : Option FsPath) (item : FSItem) :
    List (FSItem × String) × List Submission :=
  match dsroot with
  | none => (annotateUntracked item.children, [])
  | some root =>
    let ps := nonDirRelPaths root item.children
    ([], if ps.isEmpty then [] else [⟨"status", root, ps⟩])

/-- The value bound to the local variable `cmd` in
`GooeyDataladCmdExec._cmdexec_thread`: initially the command-name
string, later rebound by `cmd = getattr(dlapi, cmd)` to the resolved
API callable.  A Python string and a function object are never equal,
hence two distinct constructors. -/
inductive CmdField : Type where
  | name : String → CmdField
  | functor : String → CmdField
deriving DecidableEq

/-- A Qt signal emission of the command executor. -/
inductive ExecEvent : Type where
  | started : String → CmdField → ExecEvent
  | result : Record → ExecEvent
  | finished : String → CmdField → ExecEvent
deriving DecidableEq

/-- Whether an event is an `execution_finished` emission. -/
def ExecEvent.isFinished : ExecEvent → Bool
  | .finished _ _ => true
  | _ => false

/-- `GooeyDataladCmdExec._cmdexec_thread`, run on the single worker.
The backend generator is modelled by the records it yields before
either finishing normally (`exn = none`) or raising (`exn = some e`;
this also covers `getattr` failing, with `results = []`).  The body
has no exception handling: it emits `execution_started` with the
thread id and the name string, rebinds `cmd` to the API functor,
streams each yielded record as `result_received`, and — only when the
generator is exhausted without raising — emits `execution_finished`
with the thread id and the current value of `cmd`, which by then is
the functor, not the name.  Returns the emitted events and the
propagating exception, if any. -/
def cmdexec_thread (threadId cmd : String) (results : List Record)
    (exn : Option String) : List ExecEvent × Option String :=
  let pre := ExecEvent.started threadId (CmdField.name cmd) ::
    results.map ExecEvent.result
  match exn with
  | some e => (pre, some e)
  | none => (pre ++ [ExecEvent.finished threadId (CmdField.functor cmd)], none)

/-- An observable action of
`GooeyFilesystemBrowser._inspect_changed_dir`.  `relisted` stands for
the `FSBrowserItem.from_path(...)` re-enumeration and `updatedFrom`
for `item.update_from(newitem)`; both are opaque collaborators here —
only whether they run matters. -/
inductive RecAction : Type where
  | removedFromWatcher : FsPath → RecAction
  | removedChild : FsPath → RecAction
  | relisted : FsPath → RecAction
  | updatedFrom : FsPath → RecAction
  | raisedNotImplemented : RecAction
deriving DecidableEq

/-- `GooeyFilesystemBrowser._inspect_changed_dir(path)`, with the disk
state of the changed path passed in as `stillExists`
(`pathobj.exists()`).  Resolution failure is caught (`except
ValueError`) and only unwatches.  For a resolved item:
`item.parent()` is `None` exactly for the tree's root item; a vanished
root raises `NotImplementedError` (which aborts the slot); a vanished
non-root child is removed from its parent — and then, with no `return`
in that branch, execution falls through to the re-listing and
`update_from` of the already-removed item. -/
def inspect_changed_dir (root : FSItem) (stillExists : Bool)
    (path : FsPath) : List RecAction :=
  match getItemFromPath root path with
  | .error _ => [.removedFromWatcher path]
  | .ok _ =>
    if ¬stillExists then
      if path = root.path then [.raisedNotImplemented]
      else [.removedChild path, .relisted path, .updatedFrom path]
    else [.relisted path, .updatedFrom path]

/-- One user interaction with the tree widget that the browser reacts
to: `itemExpanded` / `itemCollapsed` (Qt emits them only on an actual
change of the expansion state). -/
inductive TreeOp : Type where
  | expand : FsPath → TreeOp
  | collapse : FsPath → TreeOp

/-- The expansion state of the tree together with the
`QFileSystemWatcher`'s path set. -/
structure WatchState where
  expanded : List FsPath
  watched : List FsPath

/-- `QFileSystemWatcher.addPath`: a path is never added twice. -/
def addPath (ws : List FsPath) (p : FsPath) : List FsPath :=
  if p ∈ ws then ws else p :: ws

/-- `QFileSystemWatcher.removePath`. -/
def removePath (ws : List FsPath) (p : FsPath) : List FsPath := ws.erase p

/-- Effect of one expand/collapse on the state: expanding a collapsed
node fires `itemExpanded`, whose slot `_watch_dir` adds the node's
path to the watcher; collapsing an expanded node fires
`itemCollapsed`, whose slot `_unwatch_dir` removes it.  (Watched paths
are assumed addable, i.e. existing directories — the expandable
directory/dataset nodes.) -/
def applyOp (s : WatchState) : TreeOp → WatchState
  | .expand p =>
    if p ∈ s.expanded then s
    else ⟨p :: s.expanded, addPath s.watched p⟩
  | .collapse p =>
    if p ∈ s.expanded then ⟨s.expanded.erase p, removePath s.watched p⟩
    else s

/-- Fold a sequence of expand/collapse interactions. -/
def applyOps (s : WatchState) (ops : List TreeOp) : WatchState :=
  ops.foldl applyOp s

/-- The browser starts with nothing expanded and nothing watched
(`__init__` only creates the collapsed root item). -/
def initWatchState : WatchState := ⟨[], []⟩

/-! Concrete items used by witnesses and counterexamples: a root
directory `r` with a file child `a.txt` and a directory child `d`. -/

/-- A file child `r/a.txt` of the example root. -/
def exFileChild : FSItem :=
  .mk ["r", "a.txt"] (some "file") none [] none

/-- A directory child `r/d` of the example root. -/
def exDirChild : FSItem :=
  .mk ["r", "d"] (some "directory") none [] none

/-- The example root item `r`. -/
def exRoot : FSItem :=
  .mk ["r"] (some "directory") none [exFileChild, exDirChild] none

/-- A status record whose path `r/zz` resolves to no live node. -/
def exLostRecord : Record :=
  ⟨some "status", some ["r", "zz"], none, some "clean", none, none, none⟩

/-- A status record for `r/a.txt` with state `clean`. -/
def exGoodRecord : Record :=
  ⟨some "status", some ["r", "a.txt"], none, some "clean", none, none, none⟩

/-- An error record for `r/a.txt` carrying a message but no state. -/
def exErrRecord : Record :=
  ⟨some "status", some ["r", "a.txt"], some "error", none, some "boom",
    none, none⟩

/-! From here on: lemmas about the embedded operations, then one
theorem per specification claim (with its witness or counterexample). -/

theorem FSItem.state_setState (i : FSItem) (s : Option String) :
    (i.setState s).state = s := by cases i; rfl

theorem FSItem.state_setDtype (i : FSItem) (t : Option String) :
    (i.setDtype t).state = i.state := by cases i; rfl

theorem FSItem.children_setLookup (i : FSItem) (lk : Option (List String)) :
    (i.setLookup lk).children = i.children := by cases i; rfl

theorem FSItem.children_setChildren (i : FSItem) (cs : List FSItem) :
    (i.setChildren cs).children = cs := by cases i; rfl

theorem popMin_length (l : List (α × Nat)) (b : α × Nat) :
    (popMin l b).2.length = l.length := by
  induction l generalizing b with
  | nil => rfl
  | cons x xs ih =>
    by_cases h : x.2 < b.2 <;> simp [popMin, h, ih]

theorem popMin_perm (l : List (α × Nat)) (b : α × Nat) :
    List.Perm ((popMin l b).1 :: (popMin l b).2) (b :: l) := by
  induction l generalizing b with
  | nil => exact List.Perm.refl _
  | cons x xs ih =>
    by_cases h : x.2 < b.2
    · simp only [popMin, if_pos h]
      exact (List.Perm.swap b _ _).trans ((ih x).cons b)
    · simp only [popMin, if_neg h]
      exact ((List.Perm.swap x _ _).trans ((ih b).cons x)).trans
        (List.Perm.swap b x xs)

theorem drainFuel_perm (n : Nat) :
    ∀ s : PySet α, s.length ≤ n →
      List.Perm (drainFuel n s) (s.map Prod.fst) := by
  induction n with
  | zero =>
    intro s hs
    have hnil : s = [] := List.length_eq_zero.mp (Nat.le_zero.mp hs)
    subst hnil
    exact List.Perm.refl _
  | succ n ih =>
    intro s hs
    match s with
    | [] => exact List.Perm.refl _
    | x :: xs =>
      have hle : (popMin xs x).2.length ≤ n := by
        rw [popMin_length xs x]
        simpa using hs
      have hrec := (ih (popMin xs x).2 hle).cons (popMin xs x).1.1
      exact hrec.trans ((popMin_perm xs x).map Prod.fst)

theorem annotateUntracked_cons_dir (x : FSItem) (xs : List FSItem)
    (h : x.dtype = some "directory") :
    annotateUntracked (x :: xs) = annotateUntracked xs := by
  simp [annotateUntracked, h]

theorem annotateUntracked_cons_nondir (x : FSItem) (xs : List FSItem)
    (h : x.dtype ≠ some "directory") :
    annotateUntracked (x :: xs) = (x, "untracked") :: annotateUntracked xs :=
  by simp [annotateUntracked, h]

theorem annotateUntracked_mem (l : List FSItem) (c : FSItem) (st : String) :
    (c, st) ∈ annotateUntracked l ↔
      st = "untracked" ∧ c ∈ l ∧ c.dtype ≠ some "directory" := by
  induction l with
  | nil => simp [annotateUntracked]
  | cons x xs ih =>
    by_cases hx : x.dtype = some "directory"
    · rw [annotateUntracked_cons_dir x xs hx, ih]
      constructor
      · rintro ⟨hst, hcm, hcd⟩
        exact ⟨hst, List.mem_cons_of_mem x hcm, hcd⟩
      · rintro ⟨hst, hc, hcd⟩
        rcases List.mem_cons.mp hc with hceq | hcm
        · exact absurd (hceq.symm ▸ hx) hcd
        · exact ⟨hst, hcm, hcd⟩
    · rw [annotateUntracked_cons_nondir x xs hx]
      constructor
      · intro hmem
        rcases List.mem_cons.mp hmem with hpe | hm
        · injection hpe with hc hst
          exact ⟨hst, by rw [hc]; exact List.mem_cons_self x xs,
            hc.symm ▸ hx⟩
        · obtain ⟨hst, hcm, hcd⟩ := ih.mp hm
          exact ⟨hst, List.mem_cons_of_mem x hcm, hcd⟩
      · rintro ⟨hst, hc, hcd⟩
        rcases List.mem_cons.mp hc with hceq | hcm
        · rw [hceq, hst]
          exact List.mem_cons_self _ _
        · exact List.mem_cons_of_mem _ (ih.mpr ⟨hst, hcm, hcd⟩)

theorem watch_invariant_step (ops : List TreeOp) (s : WatchState)
    (h : s.watched = s.expanded) :
    (applyOps s ops).watched = (applyOps s ops).expanded := by
  induction ops generalizing s with
  | nil => exact h
  | cons op rest ih =>
    apply ih
    cases op with
    | expand p =>
      by_cases hp : p ∈ s.expanded
      · simp [applyOp, hp, h]
      · simp [applyOp, hp, addPath, h]
    | collapse p =>
      by_cases hp : p ∈ s.expanded
      · simp [applyOp, hp, removePath, h]
      · simp [applyOp, hp, h]

/-- Claim C1: when the backend invocation raises (here: before yielding
any result), `_cmdexec_thread` emits only the Started event — no
synthetic error result and no Finished event — and the exception
propagates out of the worker.  This refutes the claimed failure
semantics ("emit a synthetic error result and still emit Finished"):
the worker terminates silently. -/
theorem cmdexec_raise_skips_finished :
    (cmdexec_thread "140231" "status" [] (some "ZeroDivisionError")).1
      = [ExecEvent.started "140231" (CmdField.name "status")]
  ∧ (cmdexec_thread "140231" "status" [] (some "ZeroDivisionError")).2
      = some "ZeroDivisionError"
  ∧ ((cmdexec_thread "140231" "status" []
      (some "ZeroDivisionError")).1.all fun e => !e.isFinished) = true :=
  ⟨rfl, rfl, rfl⟩

/-- Claim C5: for a submission that finishes normally, the Started
event carries the command-name string, but the Finished event carries
the value of the local `cmd` after its rebinding to the API functor —
so the two events agree on the execution id yet can never agree on the
cmdName field, refuting name-based matching. -/
theorem cmdexec_finished_name_mismatch :
    (cmdexec_thread "140231" "status" [] none).1
      = [ExecEvent.started "140231" (CmdField.name "status"),
         ExecEvent.finished "140231" (CmdField.functor "status")]
  ∧ CmdField.name "status" ≠ CmdField.functor "status" :=
  ⟨rfl, by decide⟩

/-- Claim C4: a change notification for the vanished directory `r/d`
(resolving to a live non-root node) removes the node from its parent
but does not stop: the missing `return` lets execution fall through to
the re-listing of the vanished path and the update of the removed
node.  For the vanished root, `NotImplementedError` is raised
(surfaced), as claimed. -/
theorem inspect_vanished_dir_falls_through :
    inspect_changed_dir exRoot false ["r", "d"]
      = [RecAction.removedChild ["r", "d"], RecAction.relisted ["r", "d"],
         RecAction.updatedFrom ["r", "d"]]
  ∧ inspect_changed_dir exRoot false ["r"] = [RecAction.raisedNotImplemented] :=
  ⟨rfl, rfl⟩

/-- Claim C3 counterexample: enqueue A, B, C in this order into the
pending set, with A placed at the lowest hash slot (hash values are
identity-derived and arbitrary).  The drain loop then pops A, B, C —
insertion order, not the claimed reverse-of-insertion order C, B, A. -/
theorem drainQueue_not_reverse_insertion :
    drainQueue (setAdd (setAdd (setAdd ([] : PySet String) "A" 0) "B" 1)
        "C" 2) = ["A", "B", "C"]
  ∧ (["A", "B", "C"] : List String) ≠ ["C", "B", "A"] :=
  ⟨rfl, by decide⟩

/-- Claim C3 (amended): on a tick with a non-empty pending set, the
drain loop pops one node at a time until the set is empty, processing
each pending node exactly once; the order is determined by the
elements' hash-table placement (`set.pop`), with no guaranteed
relation to insertion order. -/
theorem drainQueue_processes_each_once (s : PySet String) :
    List.Perm (drainQueue s) (s.map Prod.fst) :=
  drainFuel_perm s.length s (Nat.le_refl _)

/-- Claim C2 counterexample: a record with `action == 'status'`, a
path and a state whose path `r/zz` resolves to no live node is not
silently discarded — the `ValueError` raised by `_get_item_from_path`
propagates out of `_status_result_receiver`, which has no handler. -/
theorem status_receiver_raise_counterexample :
    statusResultReceiver exRoot exLostRecord
      = Except.error "ValueError: Cannot find item" := rfl

/-- Claim C2 (amended): for a record with `action == 'status'`, a
non-null path and a non-null state, a failed resolution makes the
receiver propagate the `ValueError` — emitting no annotation, hence
mutating no node — while a successful resolution emits exactly the
annotation for the resolved node and the record's state. -/
theorem status_receiver_resolution (root : FSItem) (res : Record)
    (p : FsPath) (st : String) (ha : res.action = some "status")
    (hp : res.path = some p) (hs : res.state = some st) :
    (∀ e, getItemFromPath root p = .error e →
      statusResultReceiver root res = .error e)
  ∧ (∀ it, getItemFromPath root p = .ok it →
      statusResultReceiver root res = .ok (some (it, st))) := by
  constructor
  · intro e he
    simp [statusResultReceiver, ha, hp, hs, he]
  · intro it hit
    simp [statusResultReceiver, ha, hp, hs, hit]

/-- Claim C2 witness: the record for `r/a.txt` resolves, and the
receiver emits the annotation `(a.txt node, clean)`. -/
theorem status_receiver_resolution_witness :
    statusResultReceiver exRoot exGoodRecord
      = Except.ok (some (exFileChild, "clean")) :=
  (status_receiver_resolution exRoot exGoodRecord ["r", "a.txt"] "clean"
    rfl rfl rfl).2 exFileChild rfl

/-- Claim C6: for a drained node with no containing dataset root, no
backend command is submitted, and the emitted annotations are exactly
one `untracked` state per non-directory child — directory children
receive none. -/
theorem no_dsroot_untracked_no_submission (item : FSItem) :
    (processDrainedItem none item).2 = []
  ∧ ∀ c st, ((c, st) ∈ (processDrainedItem none item).1 ↔
      st = "untracked" ∧ c ∈ item.children ∧ c.dtype ≠ some "directory") :=
  ⟨rfl, fun c st => annotateUntracked_mem item.children c st⟩

/-- Claim C6 witness: draining the example root outside any dataset
submits nothing, annotates the file child `untracked`, and annotates
the directory child not at all. -/
theorem no_dsroot_untracked_witness :
    (processDrainedItem none exRoot).2 = []
  ∧ (exFileChild, "untracked") ∈ (processDrainedItem none exRoot).1
  ∧ ¬∃ st, (exDirChild, st) ∈ (processDrainedItem none exRoot).1 := by
  obtain ⟨h1, h2⟩ := no_dsroot_untracked_no_submission exRoot
  refine ⟨h1, ?_, ?_⟩
  · exact (h2 exFileChild "untracked").mpr
      ⟨rfl, List.mem_cons_self _ _, by decide⟩
  · rintro ⟨st, hst⟩
    exact ((h2 exDirChild st).mp hst).2.2 rfl

theorem annotate_item_step (item : FSItem) (st : String) :
    annotate_item item [("state", st)]
      = if some st ≠ item.state then (item.setState (some st), true)
        else (item, false) := by
  unfold annotate_item
  rw [show List.lookup "state" [("state", st)] = some st from rfl]

theorem annotate_item_eq_of_eq (item : FSItem) (st : String)
    (h : some st = item.state) :
    annotate_item item [("state", st)] = (item, false) := by
  rw [annotate_item_step, if_neg (not_not_intro h)]

theorem annotate_item_eq_of_ne (item : FSItem) (st : String)
    (h : some st ≠ item.state) :
    annotate_item item [("state", st)]
      = (item.setState (some st), true) := by
  rw [annotate_item_step, if_pos h]

/-- Claim C7: `_annotate_item` with a `state` entry sets the state
column, signals `dataChanged` exactly when the new value differs from
the current one, and a second application of the identical annotation
changes nothing and signals nothing. -/
theorem annotate_item_changes_exactly_once (item : FSItem) (st : String) :
    ((annotate_item item [("state", st)]).1.state = some st)
  ∧ ((annotate_item item [("state", st)]).2 = true ↔ item.state ≠ some st)
  ∧ (annotate_item (annotate_item item [("state", st)]).1 [("state", st)]
      = ((annotate_item item [("state", st)]).1, false)) := by
  by_cases h : some st = item.state
  · rw [annotate_item_eq_of_eq item st h]
    refine ⟨h.symm, ?_, ?_⟩
    · simp [← h]
    · simpa using annotate_item_eq_of_eq item st h
  · rw [annotate_item_eq_of_ne item st h]
    refine ⟨FSItem.state_setState item (some st), ?_, ?_⟩
    · simpa using fun he => h he.symm
    · simpa using annotate_item_eq_of_eq (item.setState (some st)) st
        (FSItem.state_setState item (some st)).symm

/-- Claim C7 witness: annotating the stateless file child with `clean`
sets the state and signals; the identical second annotation is a
no-op without a signal. -/
theorem annotate_item_changes_witness :
    ((annotate_item exFileChild [("state", "clean")]).1.state
      = some "clean")
  ∧ ((annotate_item exFileChild [("state", "clean")]).2 = true)
  ∧ (annotate_item (annotate_item exFileChild [("state", "clean")]).1
      [("state", "clean")]
      = ((annotate_item exFileChild [("state", "clean")]).1, false)) :=
  ⟨(annotate_item_changes_exactly_once exFileChild "clean").1,
   (annotate_item_changes_exactly_once exFileChild "clean").2.1.mpr
     (by decide),
   (annotate_item_changes_exactly_once exFileChild "clean").2.2⟩

/-- Claim C8 counterexample: a record for the live node `r/a.txt`
lacking a `state` but carrying `status == 'error'` and a message is
discarded by `_status_result_receiver` (early return on `state is
None`) — no annotation reaches any node, so the message is not used as
the node's state label in the result-routing path. -/
theorem stateless_error_record_dropped :
    statusResultReceiver exRoot exErrRecord = Except.ok none := rfl

/-- Claim C8 (amended): `FSBrowserItem.update_from_status_result` does
use the message of a state-less error record as the state label — but
that method is not reached through result routing:
`_status_result_receiver` discards every record whose `state` is
`None`, this one included. -/
theorem error_message_surrogate (item root : FSItem) (res : Record)
    (h1 : res.state = none) (h2 : res.status = some "error")
    (h3 : truthy res.message = true) :
    (update_from_status_result item res).state = res.message
  ∧ statusResultReceiver root res = Except.ok none := by
  have hsome : res.message.isSome := by
    cases hm : res.message with
    | none => rw [hm] at h3; simp [truthy] at h3
    | some m => simp
  constructor
  · have hC : res.status = some "error" ∧ res.message.isSome = true ∧
        res.state = none := ⟨h2, hsome, h1⟩
    simp only [update_from_status_result]
    rw [if_pos hC]
    rw [if_pos h3]
    by_cases ht : truthy res.rtype = true
    · rw [if_pos ht, FSItem.state_setDtype, FSItem.state_setState]
    · rw [if_neg ht, FSItem.state_setState]
  · by_cases ha : res.action ≠ some "status"
    · simp [statusResultReceiver, ha]
    · simp only [statusResultReceiver, if_neg ha]
      cases hp : res.path with
      | none => rfl
      | some p => rw [h1]

/-- Claim C8 witness: for the concrete error record, the (uncalled)
updater would set state `boom`, while the receiver discards the
record. -/
theorem error_message_surrogate_witness :
    (update_from_status_result exFileChild exErrRecord).state
      = some "boom"
  ∧ statusResultReceiver exRoot exErrRecord = Except.ok none :=
  error_message_surrogate exFileChild exRoot exErrRecord rfl rfl rfl

/-- Claim C9: starting from the initial state (nothing expanded,
nothing watched), after any sequence of expand/collapse interactions
the watcher's path set equals the set of currently-expanded node
paths — expansion watches, collapse unwatches, nothing else is
watched. -/
theorem watch_set_equals_expanded (ops : List TreeOp) :
    (applyOps initWatchState ops).watched
      = (applyOps initWatchState ops).expanded :=
  watch_invariant_step ops initWatchState rfl

/-- Claim C10 counterexample: for the example root, whose
`_child_lookup` was never initialized, `removeChild` raises
`TypeError` — but only after `super().removeChild` has already
detached the child, refuting "raises instead of detaching". -/
theorem removeChild_detaches_then_raises :
    (FSItem.removeChild exRoot exFileChild).2 = some PyExn.typeError
  ∧ (FSItem.removeChild exRoot exFileChild).1.children = [exDirChild] :=
  ⟨rfl, rfl⟩

/-- Claim C10 (amended): `removeChild` completes without raising
exactly when the lazily-built lookup is initialized and contains the
child's name (TypeError on an uninitialized lookup, KeyError on a
missing name) — node removal presupposes a populated lookup — while
the detachment from the Qt child list happens in every case, before
any exception. -/
theorem removeChild_needs_lookup (parent child : FSItem) :
    ((parent.removeChild child).2 = none ↔
      ∃ ks, parent.lookup = some ks ∧ child.name ∈ ks)
  ∧ (parent.removeChild child).1.children
      = removeFirstByName parent.children child.name := by
  constructor
  · cases hlk : parent.lookup with
    | none => simp [FSItem.removeChild, hlk]
    | some ks =>
      by_cases hm : child.name ∈ ks
      · simp [FSItem.removeChild, hlk, hm]
      · simp [FSItem.removeChild, hlk, hm]
  · cases hlk : parent.lookup with
    | none =>
      simp [FSItem.removeChild, hlk, FSItem.children_setChildren]
    | some ks =>
      by_cases hm : child.name ∈ ks
      · simp [FSItem.removeChild, hlk, hm, FSItem.children_setLookup,
          FSItem.children_setChildren]
      · simp [FSItem.removeChild, hlk, hm, FSItem.children_setChildren]

/-- Claim C10 witness: for the uninitialized example root the call
does not succeed, and the child list left behind is the detached
one. -/
theorem removeChild_needs_lookup_witness :
    ¬((FSItem.removeChild exRoot exFileChild).2 = none)
  ∧ (FSItem.removeChild exRoot exFileChild).1.children
      = removeFirstByName exRoot.children exFileChild.name := by
  refine ⟨?_, (removeChild_needs_lookup exRoot exFileChild).2⟩
  intro h
  rcases (removeChild_needs_lookup exRoot exFileChild).1.mp h with ⟨ks, hks, _⟩
  exact Option.noConfusion hks

end Gooey
